import Mathlib

/-!
Shallow embedding of the event-management backend
(`app/` of the Event_management_fastapi repository) for checking its
specification claims.

Modelling conventions, fixed once for the whole file:

* SQLAlchemy rows become Lean structures; a table becomes a `List` of rows
  held in a `DB` record, in insertion order (which is the order in which an
  unordered query such as `.first()` visits rows for SQLite).
* `datetime` values are modelled as `Int` epoch seconds; only their linear
  order and differences are used by the code under study.
* Python `Optional[T]` columns become `Option T`.  Pydantic
  `dict(exclude_unset=True)` semantics are modelled by wrapping every
  updatable field in a further `Option` (`none` = field not supplied).
* Fallible service functions return `Except`; because every exception in
  the source is raised before `db.commit()` (or after an explicit
  `db.rollback()`), an `.error` result leaves the database argument
  untouched, so functions return the new `DB` only in the `.ok` branch.
  The one exception is `VersionService.rollback_event`, which commits a
  snapshot *before* the statement that fails; its result type therefore
  carries the post-state in every branch.
* The session is created with `autoflush=False` (`app/core/database.py`),
  so queries issued between `db.add` and `db.commit` do not see pending
  rows; `create_batch_events` is modelled accordingly: its per-item
  conflict checks run against the state the batch started from.
-/

namespace EventMgmt

/-- Permission levels, `app/models/permission.py` (`PermissionLevel`). -/
inductive PermissionLevel
  | viewer
  | editor
  | owner
deriving DecidableEq, Repr

/-- The rank table used by `PermissionLevel.__lt__`:
viewer ↦ 1, editor ↦ 2, owner ↦ 3. -/
def PermissionLevel.rank : PermissionLevel → Nat
  | .viewer => 1
  | .editor => 2
  | .owner => 3

/-- Embeds `PermissionLevel.__lt__`: compares ranks. -/
def PermissionLevel.ltP (a b : PermissionLevel) : Bool :=
  a.rank < b.rank

/-- Embeds `PermissionLevel.__le__`: `self < other or self == other`. -/
def PermissionLevel.leP (a b : PermissionLevel) : Bool :=
  a.ltP b || decide (a = b)

/-- Embeds `PermissionLevel.__gt__`: `not self <= other`. -/
def PermissionLevel.gtP (a b : PermissionLevel) : Bool :=
  !(a.leP b)

/-- Embeds `PermissionLevel.__ge__`: `self > other or self == other`. -/
def PermissionLevel.geP (a b : PermissionLevel) : Bool :=
  a.gtP b || decide (a = b)

/-- Recurrence kinds, `app/models/event.py` (`RecurrenceType`). -/
inductive RecurrenceType
  | none
  | daily
  | weekly
  | monthly
  | yearly
deriving DecidableEq, Repr

/-- An `events` table row, `app/models/event.py` (`Event`). -/
structure Event where
  id : Nat
  title : String
  description : Option String
  location : Option String
  start_time : Int
  end_time : Int
  is_recurring : Bool
  recurrence_type : RecurrenceType
  recurrence_pattern : Option (List (String × String))
  owner_id : Nat
  version : Nat
  is_deleted : Bool
deriving DecidableEq, Repr

/-- The JSON payload `VersionService.rollback_event` expects to find in the
`event_data` column of `app/models/event_version.py`'s `EventVersion`
(keys read with `.get`, hence every field optional). -/
structure EventJson where
  title : Option String
  description : Option String
  location : Option String
  start_time : Option Int
  end_time : Option Int
  is_recurring : Option Bool
  recurrence_type : Option RecurrenceType
  recurrence_pattern : Option (List (String × String))
deriving DecidableEq, Repr

/-- An `event_versions` table row.  The repository declares *two* ORM
classes for this one table: `app/models/event.py`'s `EventVersion`
(per-field snapshot columns, the class used by the snapshot writer
`EventService._create_version`) and `app/models/event_version.py`'s
`EventVersion` (a single `event_data` JSON column, the class used by the
reader `VersionService`).  We model the row with both column sets; the
writer fills the per-field columns and never the `event_data` column,
which therefore stays `none` in every reachable state. -/
structure EventVersionRow where
  event_id : Nat
  version_number : Nat
  title : String
  description : Option String
  location : Option String
  start_time : Int
  end_time : Int
  is_recurring : Bool
  recurrence_type : RecurrenceType
  recurrence_pattern : Option (List (String × String))
  changed_by : Nat
  change_summary : String
  event_data : Option EventJson
deriving DecidableEq, Repr

/-- An `event_permissions` table row, `app/models/permission.py`
(`EventPermission`); timestamps are omitted (never read by the logic
under study). -/
structure PermissionRow where
  event_id : Nat
  user_id : Nat
  permission_level : PermissionLevel
  granted_by : Nat
deriving DecidableEq, Repr

/-- The relational store: the tables the studied code touches, plus the
autoincrement counter for event ids. `users` holds the existing user ids
(the only user attribute the studied code reads). -/
structure DB where
  users : List Nat
  events : List Event
  versions : List EventVersionRow
  permissions : List PermissionRow
  nextEventId : Nat
deriving DecidableEq, Repr

/-- Replace the first list element satisfying `p` by `f` of it (the effect
of mutating the object returned by a `.first()` query and committing). -/
def update_first (p : α → Bool) (f : α → α) : List α → List α
  | [] => []
  | x :: xs => if p x then f x :: xs else x :: update_first p f xs

/-- Embeds `PermissionManager.has_permission` (`app/utils/permissions.py`):
owner short-circuit, then the explicit row compared with
`permission_level >= required_level`. -/
def has_permission (db : DB) (userId : Nat) (e : Event)
    (required : PermissionLevel) : Bool :=
  if e.owner_id = userId then
    true
  else
    match db.permissions.find?
        (fun p => decide (p.event_id = e.id ∧ p.user_id = userId)) with
    | Option.none => false
    | some p => p.permission_level.geP required

/-- The two denial reasons `PermissionManager.grant_permission` can raise. -/
inductive GrantErr
  | onlyOwnersGrantOwner
  | editorsOnlyGrantViewer
deriving DecidableEq, Repr

/-- The authority check opening `PermissionManager.grant_permission`
(`app/utils/permissions.py`): entered only when the granter is not the
event's owner; inside it, the two denial branches run only when the
granter's row is absent or not OWNER-level. -/
def grant_gate (db : DB) (e : Event) (level : PermissionLevel)
    (grantedBy : Nat) : Except GrantErr Unit :=
  if e.owner_id = grantedBy then Except.ok ()
  else
    let granter_permission := db.permissions.find?
      (fun p => decide (p.event_id = e.id ∧ p.user_id = grantedBy))
    if granter_permission.all (fun p => decide (p.permission_level ≠ PermissionLevel.owner)) then
      if level = PermissionLevel.owner then
        Except.error GrantErr.onlyOwnersGrantOwner
      else if (granter_permission.any
            (fun p => decide (p.permission_level = PermissionLevel.editor)))
          && decide (level ≠ PermissionLevel.viewer) then
        Except.error GrantErr.editorsOnlyGrantViewer
      else Except.ok ()
    else Except.ok ()

/-- The row-upsert half of `grant_permission`, reached only after the
authority gate passed. -/
def grant_permission (db : DB) (e : Event) (userId : Nat)
    (level : PermissionLevel) (grantedBy : Nat) :
    Except GrantErr (DB × PermissionRow) :=
  match grant_gate db e level grantedBy with
  | Except.error err => Except.error err
  | Except.ok _ =>
    match db.permissions.find?
        (fun p => decide (p.event_id = e.id ∧ p.user_id = userId)) with
    | some existing =>
      let updated : PermissionRow :=
        { existing with permission_level := level, granted_by := grantedBy }
      let perms :=
        update_first (fun p => decide (p.event_id = e.id ∧ p.user_id = userId))
          (fun p => { p with permission_level := level, granted_by := grantedBy })
          db.permissions
      Except.ok ({ db with permissions := perms }, updated)
    | Option.none =>
      let row : PermissionRow :=
        { event_id := e.id, user_id := userId, permission_level := level,
          granted_by := grantedBy }
      Except.ok ({ db with permissions := db.permissions ++ [row] }, row)

/-- Payload of the `EventCreate` schema (`app/schemas/event.py`), before
validation. -/
structure EventCreateData where
  title : String
  description : Option String
  location : Option String
  start_time : Int
  end_time : Int
  is_recurring : Bool
  recurrence_type : RecurrenceType
  recurrence_pattern : Option (List (String × String))
deriving DecidableEq, Repr

/-- Payload of the `EventUpdate` schema (`app/schemas/event.py`): every
field optional, with `none` meaning "not supplied" (Pydantic
`exclude_unset`).  For columns that are themselves nullable the supplied
value is again an `Option`. -/
structure EventUpdateData where
  title : Option String
  description : Option (Option String)
  location : Option (Option String)
  start_time : Option Int
  end_time : Option Int
  is_recurring : Option Bool
  recurrence_type : Option RecurrenceType
  recurrence_pattern : Option (Option (List (String × String)))
deriving DecidableEq, Repr

/-- Embeds `event_data.dict(exclude_unset=True)` is empty: no field supplied. -/
def EventUpdateData.isEmpty (u : EventUpdateData) : Bool :=
  u.title.isNone && u.description.isNone && u.location.isNone &&
  u.start_time.isNone && u.end_time.isNone && u.is_recurring.isNone &&
  u.recurrence_type.isNone && u.recurrence_pattern.isNone

/-- Validation of `EventCreate` (`app/schemas/event.py`): the `Field`
constraints on `title` (1..200 chars) and `location` (≤ 500 chars), and
the `end_time_must_be_after_start_time` validator.  Pydantic raises
before any service code runs; the parser returns the message of the
first failing check. -/
def parse_event_create (d : EventCreateData) : Except String EventCreateData :=
  if d.title.length < 1 then
    Except.error "title: ensure this value has at least 1 characters"
  else if d.title.length > 200 then
    Except.error "title: ensure this value has at most 200 characters"
  else if d.location.any (fun l => l.length > 500) then
    Except.error "location: ensure this value has at most 500 characters"
  else if d.end_time ≤ d.start_time then
    Except.error "End time must be after start time"
  else
    Except.ok d

/-- The filter of `EventService._check_event_conflicts`
(`app/services/event_service.py`): same owner, not soft-deleted,
`Event.start_time < end_time AND Event.end_time > start_time`; the id
filter is added only under `if exclude_event_id:` (Python truthiness, so
an id of `0` adds no filter). -/
def conflict_filter (ownerId : Nat) (newStart newEnd : Int)
    (excl : Option Nat) (ev : Event) : Bool :=
  decide (ev.owner_id = ownerId) && decide (ev.is_deleted = false) &&
  decide (ev.start_time < newEnd) && decide (ev.end_time > newStart) &&
  (match excl with
   | Option.none => true
   | some x => if x ≠ 0 then decide (ev.id ≠ x) else true)

/-- Embeds `EventService._check_event_conflicts`: `some title` means the query
found a conflicting event (the first one, in table order) and a 409 is
raised with its title; `none` means the check passed. -/
def check_event_conflicts (db : DB) (ownerId : Nat) (newStart newEnd : Int)
    (excl : Option Nat) : Option String :=
  (db.events.find? (conflict_filter ownerId newStart newEnd excl)).map
    (fun ev => ev.title)

/-- Embeds `EventService._create_version`: appends an `event_versions` row whose
`version_number` is the event's *current* `version` field and whose
snapshot columns copy the event's *current* state.  Only the per-field
columns of `app/models/event.py`'s `EventVersion` are populated; the
`event_data` JSON column declared by `app/models/event_version.py` is
never written, hence `none`. -/
def version_row (e : Event) (userId : Nat) (summary : String) : EventVersionRow :=
  { event_id := e.id, version_number := e.version, title := e.title,
    description := e.description, location := e.location,
    start_time := e.start_time, end_time := e.end_time,
    is_recurring := e.is_recurring, recurrence_type := e.recurrence_type,
    recurrence_pattern := e.recurrence_pattern, changed_by := userId,
    change_summary := summary, event_data := Option.none }

/-- Commit of the row built by `_create_version`. -/
def create_version (db : DB) (e : Event) (userId : Nat) (summary : String) : DB :=
  { db with versions := db.versions ++ [version_row e userId summary] }

/-- Failures of the event service, each tagged with the HTTP status the
source raises. -/
inductive SvcErr
  | forbidden (detail : String)
  | conflict (title : String)
  | validation (detail : String)
  | batchFailed (detail : String)
deriving DecidableEq, Repr

/-- Embeds `EventService.create_event`: conflict check against all of the
owner's events, insert with `version = 1`, then the "Initial creation"
snapshot. -/
def create_event (db : DB) (d : EventCreateData) (ownerId : Nat) :
    Except SvcErr (DB × Event) :=
  match check_event_conflicts db ownerId d.start_time d.end_time Option.none with
  | some t => Except.error (SvcErr.conflict t)
  | Option.none =>
    let ev : Event :=
      { id := db.nextEventId, title := d.title, description := d.description,
        location := d.location, start_time := d.start_time,
        end_time := d.end_time, is_recurring := d.is_recurring,
        recurrence_type := d.recurrence_type,
        recurrence_pattern := d.recurrence_pattern, owner_id := ownerId,
        version := 1, is_deleted := false }
    let evs' := db.events ++ [ev]
    let db1 := { db with events := evs', nextEventId := db.nextEventId + 1 }
    Except.ok (create_version db1 ev ownerId "Initial creation", ev)

/-- The `POST /events/` endpoint: Pydantic validation of the body, then
`EventService.create_event`. -/
def create_event_endpoint (db : DB) (d : EventCreateData) (ownerId : Nat) :
    Except SvcErr (DB × Event) :=
  match parse_event_create d with
  | Except.error m => Except.error (SvcErr.validation m)
  | Except.ok d' => create_event db d' ownerId

/-- Applying `update_data` to the event row
(`for field, value in update_data.items(): setattr(event, field, value)`). -/
def apply_update (e : Event) (u : EventUpdateData) : Event :=
  { e with
    title := u.title.getD e.title,
    description := u.description.getD e.description,
    location := u.location.getD e.location,
    start_time := u.start_time.getD e.start_time,
    end_time := u.end_time.getD e.end_time,
    is_recurring := u.is_recurring.getD e.is_recurring,
    recurrence_type := u.recurrence_type.getD e.recurrence_type,
    recurrence_pattern := u.recurrence_pattern.getD e.recurrence_pattern }

/-- Python `str()` of an optional text column (`None` prints as "None"). -/
def optStr : Option String → String
  | Option.none => "None"
  | some s => s

/-- One loop iteration of `EventService._generate_change_summary`: for a
supplied field, a "field: old → new" line when the new value differs from
the current one, nothing otherwise. -/
def seg {α : Type} [DecidableEq α] (cur : α) (o : Option α)
    (msg : α → List String) : List String :=
  match o with
  | some v => if cur ≠ v then msg v else []
  | Option.none => []

/-- The change lines of `EventService._generate_change_summary`, visiting
the supplied fields in the schema's declaration order (the iteration
order of `dict(exclude_unset=True)`).  Value rendering follows Python
`str()` up to the datetime format, which no studied claim depends on. -/
def field_change_strings (e : Event) (u : EventUpdateData) : List String :=
  seg e.title u.title
    (fun v => ["title: " ++ e.title ++ " → " ++ v]) ++
  seg e.description u.description
    (fun v => ["description: " ++ optStr e.description ++ " → " ++ optStr v]) ++
  seg e.location u.location
    (fun v => ["location: " ++ optStr e.location ++ " → " ++ optStr v]) ++
  seg e.start_time u.start_time
    (fun v => ["start_time: " ++ toString e.start_time ++ " → " ++ toString v]) ++
  seg e.end_time u.end_time
    (fun v => ["end_time: " ++ toString e.end_time ++ " → " ++ toString v]) ++
  seg e.is_recurring u.is_recurring
    (fun v => ["is_recurring: " ++ toString e.is_recurring ++ " → " ++ toString v]) ++
  seg e.recurrence_type u.recurrence_type
    (fun _ => ["recurrence_type changed"]) ++
  seg e.recurrence_pattern u.recurrence_pattern
    (fun _ => ["recurrence_pattern changed"])

/-- Embeds `EventService._generate_change_summary`:
`"Updated: " + ", ".join(changes) if changes else "No changes"`. -/
def generate_change_summary (e : Event) (u : EventUpdateData) : String :=
  let changes := field_change_strings e u
  if changes.isEmpty then "No changes"
  else "Updated: " ++ String.intercalate ", " changes

/-- Embeds `EventService.update_event`: EDITOR permission gate; empty change set
returns the event unchanged; conflict re-check only when a time field is
supplied (with the event's own id excluded); snapshot of the
*pre-mutation* state (at the *current* version number); apply changes and
increment `version` by 1. -/
def update_event (db : DB) (e : Event) (u : EventUpdateData) (userId : Nat) :
    Except SvcErr (DB × Event) :=
  if has_permission db userId e PermissionLevel.editor = false then
    Except.error (SvcErr.forbidden "Insufficient permissions to update event")
  else if u.isEmpty then
    Except.ok (db, e)
  else
    match (if u.start_time.isSome || u.end_time.isSome then
             check_event_conflicts db e.owner_id (u.start_time.getD e.start_time)
               (u.end_time.getD e.end_time) (some e.id)
           else Option.none) with
    | some t => Except.error (SvcErr.conflict t)
    | Option.none =>
      let summary := generate_change_summary e u
      let db1 := create_version db e userId summary
      let e' := { apply_update e u with version := e.version + 1 }
      let evs' := update_first (fun x => decide (x.id = e.id)) (fun _ => e') db1.events
      let db2 := { db1 with events := evs' }
      Except.ok (db2, e')

/-- One pass of `EventService.create_batch_events`'s first loop: each
item is conflict-checked against the state the batch started from (the
session has `autoflush=False`, so rows added earlier in the loop are not
visible to the query) and turned into a pending row with a sequential id;
the first conflict aborts the whole batch. -/
def batch_rows (db : DB) (ownerId : Nat) :
    List EventCreateData → Nat → Except String (List Event)
  | [], _ => Except.ok []
  | d :: rest, nid =>
    match check_event_conflicts db ownerId d.start_time d.end_time Option.none with
    | some t => Except.error ("Event conflicts with existing event: " ++ t)
    | Option.none =>
      match batch_rows db ownerId rest (nid + 1) with
      | Except.error t => Except.error t
      | Except.ok evs =>
        Except.ok
          ({ id := nid, title := d.title, description := d.description,
             location := d.location, start_time := d.start_time,
             end_time := d.end_time, is_recurring := d.is_recurring,
             recurrence_type := d.recurrence_type,
             recurrence_pattern := d.recurrence_pattern, owner_id := ownerId,
             version := 1, is_deleted := false } :: evs)

/-- Embeds `EventService.create_batch_events`: on any conflict the session is
rolled back, so nothing from the batch persists and a 400 is raised; on
success all events are committed and then each receives its version-1
"Initial creation" snapshot. -/
def create_batch_events (db : DB) (ds : List EventCreateData) (ownerId : Nat) :
    Except SvcErr (DB × List Event) :=
  match batch_rows db ownerId ds db.nextEventId with
  | Except.error t => Except.error (SvcErr.batchFailed ("Batch creation failed: " ++ t))
  | Except.ok evs =>
    let evs' := db.events ++ evs
    let db1 := { db with events := evs', nextEventId := db.nextEventId + ds.length }
    let db2 := evs.foldl (fun acc e => create_version acc e ownerId "Initial creation") db1
    Except.ok (db2, evs)

/-- Validation of `EventBatchCreate` (1..100 items, each an `EventCreate`)
followed by `EventService.create_batch_events`: the `POST /events/batch`
endpoint.  Pydantic rejects the whole request before any service code
runs if any item is invalid. -/
def create_batch_endpoint (db : DB) (ds : List EventCreateData) (ownerId : Nat) :
    Except SvcErr (DB × List Event) :=
  if ds.length < 1 then
    Except.error (SvcErr.validation "events: ensure this value has at least 1 items")
  else if ds.length > 100 then
    Except.error (SvcErr.validation "events: ensure this value has at most 100 items")
  else
    match (ds.map parse_event_create).find? (fun r => r.isOk = false) with
    | some (Except.error m) => Except.error (SvcErr.validation m)
    | _ => create_batch_events db ds ownerId

/-- Outcome of `VersionService.rollback_event`.  Unlike the other service
calls, a snapshot is committed *before* the line that can fail, so the
post-state is carried in every branch. -/
inductive RollbackResult
  | forbidden (db : DB)
  | versionNotFound (db : DB)
  | noEventData (db : DB)
  | nullSnapshotField (db : DB)
  | ok (db : DB) (e : Event)
deriving DecidableEq, Repr

/-- Embeds `VersionService.rollback_event` (`app/services/version_service.py`):
EDITOR gate, target-version lookup, a "Rollback to version N" snapshot of
the current state (committed immediately by `_create_version`), then the
rollback itself, which reads `target_version.event_data` — the JSON
column of `app/models/event_version.py`'s `EventVersion`.  Snapshots are
written by `EventService._create_version` through the *other*
`EventVersion` class (`app/models/event.py`), which populates per-field
columns and never `event_data`; when `event_data` is `None` the attribute
accesses `event_data.get(...)` raise (`noEventData`).  Should a row ever
carry `event_data` lacking `title`/`start_time`/`end_time`, committing
would violate those columns' NOT NULL constraints (`nullSnapshotField`). -/
def rollback_event (db : DB) (e : Event) (vn : Nat) (userId : Nat) :
    RollbackResult :=
  if has_permission db userId e PermissionLevel.editor = false then
    RollbackResult.forbidden db
  else
    match db.versions.find?
        (fun v => decide (v.event_id = e.id ∧ v.version_number = vn)) with
    | Option.none => RollbackResult.versionNotFound db
    | some target_version =>
      let db1 := create_version db e userId ("Rollback to version " ++ toString vn)
      match target_version.event_data with
      | Option.none => RollbackResult.noEventData db1
      | some d =>
        match d.title, d.start_time, d.end_time with
        | some t, some st, some en =>
          let e' : Event :=
            { e with
              title := t
              description := d.description
              location := d.location
              start_time := st
              end_time := en
              is_recurring := d.is_recurring.getD false
              recurrence_type := d.recurrence_type.getD RecurrenceType.none
              recurrence_pattern := d.recurrence_pattern
              version := e.version + 1 }
          let evs' := update_first (fun x => decide (x.id = e.id)) (fun _ => e') db1.events
          RollbackResult.ok { db1 with events := evs' } e'
        | _, _, _ => RollbackResult.nullSnapshotField db1

/-- Embeds `EventService.get_event_by_id`: by id, soft-deleted rows excluded. -/
def get_event_by_id (db : DB) (eventId : Nat) : Option Event :=
  db.events.find? (fun e => decide (e.id = eventId ∧ e.is_deleted = false))

/-- One entry of an `EventShareRequest` (`PermissionShare`,
`app/schemas/auth.py`). -/
structure ShareItem where
  user_id : Nat
  permission_level : PermissionLevel
deriving DecidableEq, Repr

/-- Embeds `EventShareRequest` validation: 1..50 entries, every `user_id > 0`,
no duplicate user ids (`len(user_ids) != len(set(user_ids))`). -/
def valid_share_request (items : List ShareItem) : Bool :=
  decide (1 ≤ items.length) && decide (items.length ≤ 50) &&
  items.all (fun it => decide (0 < it.user_id)) &&
  decide ((items.map (fun it => it.user_id)).dedup.length = items.length)

/-- Request-aborting failures of the share endpoint. -/
inductive ShareErr
  | validation
  | notFound
  | forbidden
  | usersMissing
deriving DecidableEq, Repr

/-- Per-target outcome reported by the share endpoint. -/
structure ShareStatus where
  user_id : Nat
  permission_level : PermissionLevel
  granted : Bool
deriving DecidableEq, Repr

/-- One iteration of `share_event`'s granting loop: a successful
`grant_permission` advances the database and records a "granted" status;
a denial leaves the database as it was and records a failure status. -/
def share_step (ev : Event) (currentUser : Nat)
    (acc : DB × List ShareStatus) (it : ShareItem) : DB × List ShareStatus :=
  match grant_permission acc.1 ev it.user_id it.permission_level currentUser with
  | Except.ok (db', _) =>
    (db', acc.2 ++ [{ user_id := it.user_id,
                      permission_level := it.permission_level,
                      granted := true }])
  | Except.error _ =>
    (acc.1, acc.2 ++ [{ user_id := it.user_id,
                        permission_level := it.permission_level,
                        granted := false }])

/-- Embeds `share_event` (`app/api/v1/collaboration.py`): schema validation,
event lookup, an OWNER-level `has_permission` gate on the caller,
existence check of every target user, then one `grant_permission` per
target with per-target success/failure recording (a failed grant does not
abort the request). -/
def share_event (db : DB) (eventId : Nat) (items : List ShareItem)
    (currentUser : Nat) : Except ShareErr (DB × List ShareStatus) :=
  if valid_share_request items = false then
    Except.error ShareErr.validation
  else
    match get_event_by_id db eventId with
    | Option.none => Except.error ShareErr.notFound
    | some ev =>
      if has_permission db currentUser ev PermissionLevel.owner = false then
        Except.error ShareErr.forbidden
      else if items.all (fun it => db.users.contains it.user_id) = false then
        Except.error ShareErr.usersMissing
      else
        Except.ok (items.foldl (share_step ev currentUser) (db, []))

/-- A value stored in a snapshot field-map handed to the diff engine
(`app/utils/diff.py`): string, datetime (epoch seconds), boolean, or a
flat string-keyed map (the recurrence pattern). -/
inductive FVal
  | str (v : String)
  | dt (v : Int)
  | bool (v : Bool)
  | dict (kvs : List (String × String))
deriving DecidableEq, Repr

/-- A snapshot field-map.  An entry whose value is `none` models a Python
key mapped to `None`; an absent key and a `None` value are
indistinguishable to `.get` but distinguished by `in`. -/
def FieldMap : Type := List (String × Option FVal)

instance : DecidableEq FieldMap := by
  unfold FieldMap
  infer_instance

/-- Python `dict.get(field)`: `None` for both a missing key and a key
mapped to `None`. -/
def fm_get (m : FieldMap) (k : String) : Option FVal :=
  (m.lookup k).join

/-- Python `field in dict`. -/
def fm_has (m : FieldMap) (k : String) : Bool :=
  (m.lookup k).isSome

/-- The union `set(keys1) | set(keys2)` of `generate_detailed_diff`,
iterated here in first-occurrence order.  Python iterates a `set`, whose
order carries no information; every output container keyed by field is a
dict, whose equality ignores order, so any canonical order is faithful. -/
def fm_union_keys (m1 m2 : FieldMap) : List String :=
  (m1.map Prod.fst ++ m2.map Prod.fst).dedup

/-- Embeds `type(value).__name__ if value is not None else "null"`. -/
def fval_type_name : Option FVal → String
  | Option.none => "null"
  | some (FVal.str _) => "str"
  | some (FVal.dt _) => "datetime"
  | some (FVal.bool _) => "bool"
  | some (FVal.dict _) => "dict"

/-- Python `str()` of a field value, rendered up to the datetime format
(no studied claim depends on the exact text). -/
def fval_str : Option FVal → String
  | Option.none => "None"
  | some (FVal.str v) => v
  | some (FVal.dt v) => toString v
  | some (FVal.bool v) => toString v
  | some (FVal.dict kvs) => toString kvs

/-- Embeds `DiffGenerator._humanize_time_diff`. -/
def humanize_time_diff (seconds : Int) : String :=
  let a := seconds.natAbs
  if a < 60 then toString a ++ " seconds"
  else if a < 3600 then toString (a / 60) ++ " minutes"
  else if a < 86400 then toString (a / 3600) ++ " hours"
  else toString (a / 86400) ++ " days"

/-- Result of `DiffGenerator._analyze_datetime_change`; `invalid` models
the `{"error": "Invalid datetime values"}` dictionary returned when
either side is not a datetime. -/
inductive DatetimeAnalysis
  | invalid
  | ok (old_datetime new_datetime time_difference_seconds : Int)
       (time_difference_human : String) (moved_earlier moved_later : Bool)
deriving DecidableEq, Repr

/-- Embeds `DiffGenerator._analyze_datetime_change`. -/
def analyze_datetime_change (oldv newv : Option FVal) : DatetimeAnalysis :=
  match oldv, newv with
  | some (FVal.dt o), some (FVal.dt n) =>
    DatetimeAnalysis.ok o n (n - o) (humanize_time_diff (n - o))
      (decide (n - o < 0)) (decide (0 < n - o))
  | _, _ => DatetimeAnalysis.invalid

/-- Result of `DiffGenerator._analyze_json_change`: key-level breakdown
of the two dict values.  The Python lists are built from set operations;
they are modelled in the first dict's (respectively second's, for added
keys) key order — see `fm_union_keys` on why that is faithful. -/
structure JsonDiff where
  added_keys : List String
  removed_keys : List String
  modified_keys : List (String × String × String)
  unchanged_keys : List String
deriving DecidableEq, Repr

/-- Embeds `DiffGenerator._analyze_json_change`. -/
def analyze_json_change (o n : List (String × String)) : JsonDiff :=
  let old_keys := (o.map Prod.fst).dedup
  let new_keys := (n.map Prod.fst).dedup
  { added_keys := new_keys.filter (fun k => !old_keys.contains k)
    removed_keys := old_keys.filter (fun k => !new_keys.contains k)
    modified_keys :=
      (old_keys.filter (fun k => new_keys.contains k &&
          decide (o.lookup k ≠ n.lookup k))).map
        (fun k => (k, (o.lookup k).getD "", (n.lookup k).getD ""))
    unchanged_keys :=
      old_keys.filter (fun k => new_keys.contains k &&
        decide (o.lookup k = n.lookup k)) }

/-- The per-field record built by `DiffGenerator._analyze_field_change`. -/
structure ChangeInfo where
  field : String
  has_changed : Bool
  change_type : String
  old_value : Option FVal
  new_value : Option FVal
  old_value_type : String
  new_value_type : String
  human_readable : String
  datetime_diff : Option DatetimeAnalysis
  json_diff : Option JsonDiff
deriving DecidableEq, Repr

/-- Embeds `DiffGenerator._analyze_field_change`: equality test first (an early
return leaves `change_type = "unchanged"`), then classification into
added/removed/modified with a human-readable line, then the datetime and
recurrence-pattern special cases. -/
def analyze_field_change (fieldName : String) (oldv newv : Option FVal) :
    ChangeInfo :=
  let base : ChangeInfo :=
    { field := fieldName
      has_changed := decide (oldv ≠ newv)
      change_type := "unchanged"
      old_value := oldv
      new_value := newv
      old_value_type := fval_type_name oldv
      new_value_type := fval_type_name newv
      human_readable := ""
      datetime_diff := Option.none
      json_diff := Option.none }
  if oldv = newv then base
  else
    let withType : ChangeInfo :=
      match oldv, newv with
      | Option.none, some v =>
        { base with
          change_type := "added"
          human_readable := "Added " ++ fieldName ++ ": " ++ fval_str (some v) }
      | some v, Option.none =>
        { base with
          change_type := "removed"
          human_readable := "Removed " ++ fieldName ++ ": " ++ fval_str (some v) }
      | _, _ =>
        { base with
          change_type := "modified"
          human_readable := "Changed " ++ fieldName ++ ": " ++ fval_str oldv
            ++ " → " ++ fval_str newv }
    let withDt : ChangeInfo :=
      if fieldName = "start_time" ∨ fieldName = "end_time" ∨
          fieldName = "created_at" ∨ fieldName = "updated_at" then
        { withType with datetime_diff := some (analyze_datetime_change oldv newv) }
      else withType
    if fieldName = "recurrence_pattern" then
      match oldv, newv with
      | some (FVal.dict o), some (FVal.dict n) =>
        { withDt with json_diff := some (analyze_json_change o n) }
      | _, _ => withDt
    else withDt

/-- The `structured_diff` component
(`DiffGenerator._generate_structured_diff`): keys classified by raw dict
membership (`in`), so a key explicitly mapped to `None` counts as
present. -/
structure StructuredDiff where
  additions : List (String × Option FVal)
  deletions : List (String × Option FVal)
  modifications : List (String × Option FVal × Option FVal)
deriving DecidableEq, Repr

/-- Embeds `DiffGenerator._generate_structured_diff`. -/
def generate_structured_diff (d1 d2 : FieldMap) : StructuredDiff :=
  let keys := fm_union_keys d1 d2
  { additions :=
      (keys.filter (fun k => !fm_has d1 k)).map (fun k => (k, fm_get d2 k))
    deletions :=
      (keys.filter (fun k => fm_has d1 k && !fm_has d2 k)).map
        (fun k => (k, fm_get d1 k))
    modifications :=
      (keys.filter (fun k => fm_has d1 k && fm_has d2 k &&
          decide (fm_get d1 k ≠ fm_get d2 k))).map
        (fun k => (k, fm_get d1 k, fm_get d2 k)) }

/-- The `summary` component of the detailed diff.  `generated_at` is
`datetime.utcnow().isoformat()` — the wall-clock instant of the call,
made an explicit argument of the embedding. -/
structure DiffSummary where
  total_changes : Nat
  added_fields : Nat
  removed_fields : Nat
  modified_fields : Nat
  generated_at : String
deriving DecidableEq, Repr

/-- The full result of `DiffGenerator.generate_detailed_diff`. -/
structure DiffResult where
  summary : DiffSummary
  field_changes : List (String × ChangeInfo)
  structured_diff : StructuredDiff
deriving DecidableEq, Repr

/-- The changed-field entries of the detailed diff, in canonical key
order (see `fm_union_keys`). -/
def diff_field_changes (d1 d2 : FieldMap) : List (String × ChangeInfo) :=
  ((fm_union_keys d1 d2).map
      (fun k => (k, analyze_field_change k (fm_get d1 k) (fm_get d2 k)))).filter
    (fun kc => kc.2.has_changed)

/-- Embeds `DiffGenerator.generate_detailed_diff` (`app/utils/diff.py`), with
the call instant `generatedAt` as an explicit argument: field-by-field
analysis over the union of keys, change counters, and the structured
diff. -/
def generate_detailed_diff (generatedAt : String) (d1 d2 : FieldMap) :
    DiffResult :=
  let fcs := diff_field_changes d1 d2
  { summary :=
      { total_changes := fcs.length
        added_fields := (fcs.filter (fun kc => kc.2.change_type = "added")).length
        removed_fields := (fcs.filter (fun kc => kc.2.change_type = "removed")).length
        modified_fields := (fcs.filter (fun kc =>
            kc.2.change_type ≠ "added" ∧ kc.2.change_type ≠ "removed")).length
        generated_at := generatedAt }
    field_changes := fcs
    structured_diff := generate_structured_diff d1 d2 }

/-- A sequence of consecutive `update_event` calls by one user, each
applied to the event returned by the previous one; the first failure
aborts the run. -/
def run_updates (userId : Nat) :
    DB → Event → List EventUpdateData → Except SvcErr (DB × Event)
  | db, e, [] => Except.ok (db, e)
  | db, e, u :: us =>
    match update_event db e u userId with
    | Except.error err => Except.error err
    | Except.ok (db', e') => run_updates userId db' e' us

/-- Version numbers of the stored snapshot rows of one event, in table
order. -/
def versions_of (vs : List EventVersionRow) (eventId : Nat) : List Nat :=
  (vs.filter (fun v => decide (v.event_id = eventId))).map
    (fun v => v.version_number)

/-- Version numbers of the stored snapshots of one event. -/
def snapshot_versions (db : DB) (eventId : Nat) : List Nat :=
  versions_of db.versions eventId

/-- At most one `EventPermission` row per (event, grantee) pair. -/
def perms_unique (db : DB) : Prop :=
  db.permissions.Pairwise
    (fun p q => p.event_id ≠ q.event_id ∨ p.user_id ≠ q.user_id)

lemma geP_trans_editor_viewer (l : PermissionLevel) :
    l.geP PermissionLevel.editor = true → l.geP PermissionLevel.viewer = true := by
  cases l <;> decide

/-- C6: permission checking is monotone in the required level — whenever
`has_permission` grants EDITOR access it also grants VIEWER access, under
the viewer(1) < editor(2) < owner(3) rank order realised by the
`PermissionLevel` comparison operators. -/
theorem c6_authorize_monotone (db : DB) (userId : Nat) (e : Event)
    (h : has_permission db userId e PermissionLevel.editor = true) :
    has_permission db userId e PermissionLevel.viewer = true := by
  unfold has_permission at h ⊢
  by_cases ho : e.owner_id = userId
  · simp [ho]
  · rw [if_neg ho] at h ⊢
    cases hf : db.permissions.find?
        (fun p => decide (p.event_id = e.id ∧ p.user_id = userId)) with
    | none => rw [hf] at h; exact Bool.noConfusion h
    | some p => rw [hf] at h; exact geP_trans_editor_viewer _ h

def c6_ev : Event :=
  { id := 1, title := "Standup", description := Option.none,
    location := Option.none, start_time := 540, end_time := 570,
    is_recurring := false, recurrence_type := RecurrenceType.none,
    recurrence_pattern := Option.none, owner_id := 1, version := 1,
    is_deleted := false }

def c6_db : DB :=
  { users := [1, 2], events := [c6_ev], versions := [],
    permissions := [{ event_id := 1, user_id := 2,
                      permission_level := PermissionLevel.editor,
                      granted_by := 1 }],
    nextEventId := 2 }

/-- Witness for C6 at a concrete editor grant. -/
theorem c6_authorize_monotone_witness :
    has_permission c6_db 2 c6_ev PermissionLevel.editor = true ∧
    has_permission c6_db 2 c6_ev PermissionLevel.viewer = true :=
  ⟨by decide, c6_authorize_monotone c6_db 2 c6_ev (by decide)⟩

def c3_ev : Event :=
  { id := 1, title := "Standup", description := Option.none,
    location := Option.none, start_time := 540, end_time := 570,
    is_recurring := false, recurrence_type := RecurrenceType.none,
    recurrence_pattern := Option.none, owner_id := 1, version := 1,
    is_deleted := false }

def c3_db : DB :=
  { users := [1, 2, 3], events := [c3_ev], versions := [],
    permissions := [], nextEventId := 2 }

/-- C3 counterexample: user 2 is not the owner of the event and holds no
permission row at all, yet `grant_permission` lets them grant VIEWER to
user 3 — the claim says every grant by such a granter is denied. -/
theorem c3_no_row_granter_succeeds :
    c3_ev.owner_id ≠ 2 ∧
    c3_db.permissions.find?
      (fun p => decide (p.event_id = c3_ev.id ∧ p.user_id = 2)) = Option.none ∧
    (grant_permission c3_db c3_ev 3 PermissionLevel.viewer 2).isOk = true := by
  decide

/-- C3 amended: `grant_permission` denies a request exactly when the
granter is not the event's owner, the granter's permission row (if any)
is not OWNER-level, and either the target level is OWNER or the granter's
row is EDITOR-level with a non-VIEWER target.  In particular granters
with no row or a VIEWER row may grant VIEWER and EDITOR, and a non-owner
holding an OWNER-level row may grant anything, including OWNER. -/
theorem c3_grant_authority_characterisation (db : DB) (e : Event)
    (userId : Nat) (level : PermissionLevel) (grantedBy : Nat) :
    (grant_permission db e userId level grantedBy).isOk = false ↔
      (e.owner_id ≠ grantedBy ∧
       (∀ p, db.permissions.find?
           (fun q => decide (q.event_id = e.id ∧ q.user_id = grantedBy)) = some p →
         p.permission_level ≠ PermissionLevel.owner) ∧
       (level = PermissionLevel.owner ∨
        (∃ p, db.permissions.find?
            (fun q => decide (q.event_id = e.id ∧ q.user_id = grantedBy)) = some p ∧
          p.permission_level = PermissionLevel.editor ∧
          level ≠ PermissionLevel.viewer))) := by
  have hok : ∀ r : Except GrantErr Unit, grant_gate db e level grantedBy = r →
      ((grant_permission db e userId level grantedBy).isOk = false ↔
        ∃ err, r = Except.error err) := by
    intro r hr
    unfold grant_permission
    rw [hr]
    cases r with
    | error err => simp [Except.isOk, Except.toBool]
    | ok _ =>
      cases hf : db.permissions.find?
          (fun p => decide (p.event_id = e.id ∧ p.user_id = userId)) <;>
        simp [Except.isOk, Except.toBool]
  rw [hok _ rfl]
  unfold grant_gate
  by_cases ho : e.owner_id = grantedBy
  · simp [ho]
  · rw [if_neg ho]
    cases hf : db.permissions.find?
        (fun p => decide (p.event_id = e.id ∧ p.user_id = grantedBy)) with
    | none =>
      cases level <;> simp [ho, Option.all, Option.any]
    | some p =>
      cases hp : p.permission_level <;> cases level <;>
        simp [ho, hp, Option.all, Option.any]

lemma conflict_filter_iff (ownerId : Nat) (newStart newEnd : Int)
    (excl : Option Nat) (hx : ∀ x, excl = some x → x ≠ 0) (ev : Event) :
    conflict_filter ownerId newStart newEnd excl ev = true ↔
      (ev.owner_id = ownerId ∧ ev.is_deleted = false ∧
       ev.start_time < newEnd ∧ ev.end_time > newStart ∧
       ∀ x, excl = some x → ev.id ≠ x) := by
  unfold conflict_filter
  cases excl with
  | none => simp [and_assoc]
  | some x =>
    have hx0 : x ≠ 0 := hx x rfl
    simp [hx0, and_assoc]

/-- C4: the conflict check fails (returns the first colliding title, to be
raised as a 409) iff some non-deleted event of the same owner — other
than the excluded event id, when one is given — satisfies
`existing.start < newEnd AND existing.end > newStart`; events that merely
touch the proposed interval at an endpoint never trigger it, and events
of other owners never trigger it.  The hypothesis on `excl` reflects that
real event ids are positive (`exclude_event_id` is tested for Python
truthiness, so an id of 0 would not be excluded). -/
theorem c4_conflict_rule (db : DB) (ownerId : Nat) (newStart newEnd : Int)
    (excl : Option Nat) (hx : ∀ x, excl = some x → x ≠ 0) :
    ((check_event_conflicts db ownerId newStart newEnd excl).isSome = true ↔
      ∃ ev ∈ db.events, ev.owner_id = ownerId ∧ ev.is_deleted = false ∧
        ev.start_time < newEnd ∧ ev.end_time > newStart ∧
        ∀ x, excl = some x → ev.id ≠ x) ∧
    ((∀ ev ∈ db.events, ev.end_time ≤ newStart ∨ newEnd ≤ ev.start_time) →
      check_event_conflicts db ownerId newStart newEnd excl = Option.none) ∧
    ((∀ ev ∈ db.events, ev.owner_id ≠ ownerId) →
      check_event_conflicts db ownerId newStart newEnd excl = Option.none) := by
  refine ⟨?_, ?_, ?_⟩
  · unfold check_event_conflicts
    simp only [Option.isSome_map', List.find?_isSome]
    exact exists_congr fun ev => and_congr_right fun _ =>
      conflict_filter_iff ownerId newStart newEnd excl hx ev
  · intro h
    unfold check_event_conflicts
    simp only [Option.map_eq_none', List.find?_eq_none]
    intro ev hm
    cases hc : conflict_filter ownerId newStart newEnd excl ev
    · simp
    · exfalso
      obtain ⟨_, _, h3, h4, _⟩ :=
        (conflict_filter_iff ownerId newStart newEnd excl hx ev).1 hc
      rcases h ev hm with h5 | h5 <;> omega
  · intro h
    unfold check_event_conflicts
    simp only [Option.map_eq_none', List.find?_eq_none]
    intro ev hm
    cases hc : conflict_filter ownerId newStart newEnd excl ev
    · simp
    · exfalso
      obtain ⟨h1, _, _, _, _⟩ :=
        (conflict_filter_iff ownerId newStart newEnd excl hx ev).1 hc
      exact h ev hm h1

def c4_ev : Event :=
  { id := 1, title := "Morning block", description := Option.none,
    location := Option.none, start_time := 600, end_time := 660,
    is_recurring := false, recurrence_type := RecurrenceType.none,
    recurrence_pattern := Option.none, owner_id := 1, version := 1,
    is_deleted := false }

def c4_db : DB :=
  { users := [1], events := [c4_ev], versions := [], permissions := [],
    nextEventId := 2 }

/-- Witness for C4: a proposed interval overlapping the stored one is
reported as a conflict. -/
theorem c4_conflict_rule_witness :
    (check_event_conflicts c4_db 1 630 700 Option.none).isSome = true :=
  (c4_conflict_rule c4_db 1 630 700 Option.none
      (fun _ hx => Option.noConfusion hx)).1.mpr
    ⟨c4_ev, by decide, by decide, by decide, by decide, by decide,
     fun _ hx => Option.noConfusion hx⟩

def c7_a : FieldMap := [("title", some (FVal.str "Standup"))]

def c7_b : FieldMap := [("title", some (FVal.str "Standup v2"))]

/-- C7 counterexample: the detailed diff is not a function of the two
field-maps alone — its summary embeds the wall-clock instant of the call
(`generated_at`, from `datetime.utcnow()`), so two invocations on the
same inputs at different instants produce different outputs. -/
theorem c7_diff_not_deterministic :
    generate_detailed_diff "2024-01-01T00:00:00" c7_a c7_b ≠
      generate_detailed_diff "2024-01-02T00:00:00" c7_a c7_b := by
  decide

/-- C7 amended: apart from the `generated_at` timestamp, the detailed
diff is a pure, deterministic function of the two field-maps — the
changed-field records, the structured diff, and all four change counters
agree across invocations at different instants. -/
theorem c7_diff_deterministic_modulo_timestamp (t1 t2 : String)
    (d1 d2 : FieldMap) :
    (generate_detailed_diff t1 d1 d2).field_changes =
        (generate_detailed_diff t2 d1 d2).field_changes ∧
    (generate_detailed_diff t1 d1 d2).structured_diff =
        (generate_detailed_diff t2 d1 d2).structured_diff ∧
    (generate_detailed_diff t1 d1 d2).summary.total_changes =
        (generate_detailed_diff t2 d1 d2).summary.total_changes ∧
    (generate_detailed_diff t1 d1 d2).summary.added_fields =
        (generate_detailed_diff t2 d1 d2).summary.added_fields ∧
    (generate_detailed_diff t1 d1 d2).summary.removed_fields =
        (generate_detailed_diff t2 d1 d2).summary.removed_fields ∧
    (generate_detailed_diff t1 d1 d2).summary.modified_fields =
        (generate_detailed_diff t2 d1 d2).summary.modified_fields :=
  ⟨rfl, rfl, rfl, rfl, rfl, rfl⟩

instance {e a : Type} [DecidableEq e] [DecidableEq a] : DecidableEq (Except e a) := fun x y =>
  match x, y with
  | Except.ok v, Except.ok w =>
    if h : v = w then isTrue (by rw [h])
    else isFalse (by intro hc; injection hc with h'; exact h h')
  | Except.error v, Except.error w =>
    if h : v = w then isTrue (by rw [h])
    else isFalse (by intro hc; injection hc with h'; exact h h')
  | Except.ok _, Except.error _ => isFalse (by intro hc; cases hc)
  | Except.error _, Except.ok _ => isFalse (by intro hc; cases hc)

def c9_ev : Event :=
  { id := 1, title := "Planning", description := Option.none,
    location := Option.none, start_time := 540, end_time := 570,
    is_recurring := false, recurrence_type := RecurrenceType.none,
    recurrence_pattern := Option.none, owner_id := 1, version := 1,
    is_deleted := false }

def c9_db : DB :=
  { users := [1, 2], events := [c9_ev], versions := [], permissions := [],
    nextEventId := 2 }

def c9_item : ShareItem :=
  { user_id := 1, permission_level := PermissionLevel.viewer }

def c9_run : Except ShareErr (DB × List ShareStatus) :=
  share_event c9_db 1 [c9_item] 1

def c9_db' : DB :=
  match c9_run with
  | Except.ok (d, _) => d
  | Except.error _ => c9_db

/-- C9 counterexample: the owner of the event shares it with themself —
the request passes every check of `share_event` and `grant_permission`
inserts a permission row whose grantee is the event's owner, so the
owner does appear as a grantee row in a reachable state. -/
theorem c9_owner_becomes_grantee :
    c9_run = Except.ok (c9_db',
      [{ user_id := 1, permission_level := PermissionLevel.viewer,
         granted := true }]) ∧
    c9_db'.permissions.any
      (fun p => decide (p.event_id = c9_ev.id ∧ p.user_id = c9_ev.owner_id)) = true := by
  decide

lemma mem_update_first {α : Type} {p : α → Bool} {f : α → α} :
    ∀ {l : List α} {b : α}, b ∈ update_first p f l →
      b ∈ l ∨ ∃ a, a ∈ l ∧ b = f a := by
  intro l
  induction l with
  | nil => intro b hb; cases hb
  | cons x xs ih =>
    intro b hb
    unfold update_first at hb
    by_cases hp : p x
    · rw [if_pos hp] at hb
      rcases List.mem_cons.1 hb with h | h
      · exact Or.inr ⟨x, List.mem_cons_self x xs, h⟩
      · exact Or.inl (List.mem_cons_of_mem x h)
    · rw [if_neg hp] at hb
      rcases List.mem_cons.1 hb with h | h
      · exact Or.inl (h ▸ List.mem_cons_self x xs)
      · rcases ih h with h' | ⟨a, ha, hba⟩
        · exact Or.inl (List.mem_cons_of_mem x h')
        · exact Or.inr ⟨a, List.mem_cons_of_mem x ha, hba⟩

lemma pairwise_update_first (p : PermissionRow → Bool)
    (f : PermissionRow → PermissionRow)
    (hf : ∀ x, (f x).event_id = x.event_id ∧ (f x).user_id = x.user_id) :
    ∀ l : List PermissionRow,
      l.Pairwise (fun a b => a.event_id ≠ b.event_id ∨ a.user_id ≠ b.user_id) →
      (update_first p f l).Pairwise
        (fun a b => a.event_id ≠ b.event_id ∨ a.user_id ≠ b.user_id) := by
  intro l hl
  induction l with
  | nil => exact hl
  | cons x xs ih =>
    rw [List.pairwise_cons] at hl
    unfold update_first
    by_cases hp : p x
    · rw [if_pos hp, List.pairwise_cons]
      refine ⟨fun b hb => ?_, hl.2⟩
      rcases hl.1 b hb with h1 | h1
      · exact Or.inl ((hf x).1 ▸ h1)
      · exact Or.inr ((hf x).2 ▸ h1)
    · rw [if_neg hp, List.pairwise_cons]
      refine ⟨fun b hb => ?_, ih hl.2⟩
      rcases mem_update_first hb with h | ⟨a, ha, hba⟩
      · exact hl.1 b h
      · subst hba
        rcases hl.1 a ha with h1 | h1
        · exact Or.inl (fun hc => h1 (hc.trans ((hf a).1)))
        · exact Or.inr (fun hc => h1 (hc.trans ((hf a).2)))

lemma grant_permission_preserves_unique {db : DB} {e : Event} {userId : Nat}
    {level : PermissionLevel} {grantedBy : Nat} {db' : DB} {row : PermissionRow}
    (h : perms_unique db)
    (hg : grant_permission db e userId level grantedBy = Except.ok (db', row)) :
    perms_unique db' := by
  unfold grant_permission at hg
  cases hgate : grant_gate db e level grantedBy with
  | error err => rw [hgate] at hg; cases hg
  | ok _ =>
    rw [hgate] at hg
    cases hf : db.permissions.find?
        (fun p => decide (p.event_id = e.id ∧ p.user_id = userId)) with
    | some ex =>
      rw [hf] at hg
      injection hg with hg'
      injection hg' with h1 h2
      subst h1
      unfold perms_unique at h ⊢
      show (update_first (fun p => decide (p.event_id = e.id ∧ p.user_id = userId))
        (fun p => { p with permission_level := level, granted_by := grantedBy })
        db.permissions).Pairwise
          (fun a b => a.event_id ≠ b.event_id ∨ a.user_id ≠ b.user_id)
      exact pairwise_update_first
        (fun p => decide (p.event_id = e.id ∧ p.user_id = userId))
        (fun p => { p with permission_level := level, granted_by := grantedBy })
        (fun x => ⟨rfl, rfl⟩) db.permissions h
    | none =>
      rw [hf] at hg
      injection hg with hg'
      injection hg' with h1 h2
      subst h1
      unfold perms_unique at h ⊢
      rw [List.pairwise_append]
      refine ⟨h, List.pairwise_singleton _ _, fun a ha b hb => ?_⟩
      rw [List.mem_singleton] at hb
      subst hb
      have hna := List.find?_eq_none.1 hf a ha
      simp only [decide_eq_true_eq] at hna
      exact not_and_or.1 hna

lemma share_fold_preserves_unique (ev : Event) (cur : Nat) :
    ∀ (items : List ShareItem) (acc : DB × List ShareStatus),
      perms_unique acc.1 →
      perms_unique ((items.foldl (share_step ev cur) acc).1) := by
  intro items
  induction items with
  | nil => intro acc h; exact h
  | cons it its ih =>
    intro acc h
    rw [List.foldl_cons]
    apply ih
    unfold share_step
    cases hg : grant_permission acc.1 ev it.user_id it.permission_level cur with
    | ok pr =>
      cases pr with
      | mk d r => exact grant_permission_preserves_unique h hg
    | error err => exact h

/-- C9 amended: the per-pair uniqueness half of the claim holds — in any
state with at most one permission row per (event, grantee) pair, a
`share_event` request preserves that invariant, because `grant_permission`
overwrites an existing row in place and inserts only when the lookup
found none.  The owner-never-a-grantee half is false: `share_event` never
excludes the owner as a target (see the counterexample), so only the
uniqueness half remains. -/
theorem c9_share_preserves_row_uniqueness (db : DB) (eventId : Nat)
    (items : List ShareItem) (cur : Nat) (db' : DB) (sts : List ShareStatus)
    (h : perms_unique db)
    (hs : share_event db eventId items cur = Except.ok (db', sts)) :
    perms_unique db' := by
  unfold share_event at hs
  split at hs
  · cases hs
  · split at hs
    · cases hs
    · split at hs
      · cases hs
      · split at hs
        · cases hs
        · injection hs with hs'
          have hdb : (items.foldl (share_step _ cur) (db, [])).1 = db' :=
            congrArg Prod.fst hs'
          rw [← hdb]
          exact share_fold_preserves_unique _ cur items (db, []) h

def c9w_db : DB :=
  { users := [1, 2], events := [c9_ev], versions := [], permissions := [],
    nextEventId := 2 }

def c9w_item : ShareItem :=
  { user_id := 2, permission_level := PermissionLevel.viewer }

def c9w_run : Except ShareErr (DB × List ShareStatus) :=
  share_event c9w_db 1 [c9w_item] 1

def c9w_db' : DB :=
  match c9w_run with
  | Except.ok (d, _) => d
  | Except.error _ => c9w_db

def c9w_sts : List ShareStatus :=
  match c9w_run with
  | Except.ok (_, s) => s
  | Except.error _ => []

/-- Witness for C9's amended theorem at a concrete share request. -/
theorem c9_share_preserves_row_uniqueness_witness : perms_unique c9w_db' :=
  c9_share_preserves_row_uniqueness c9w_db 1 [c9w_item] 1 c9w_db' c9w_sts
    List.Pairwise.nil rfl

lemma seg_nil {α : Type} [DecidableEq α] (cur : α) (o : Option α)
    (msg : α → List String) (h : o.getD cur = cur) : seg cur o msg = [] := by
  cases o with
  | none => rfl
  | some v =>
    simp only [Option.getD_some] at h
    simp [seg, h]

lemma field_change_strings_nil (e : Event) (u : EventUpdateData)
    (h : apply_update e u = e) : field_change_strings e u = [] := by
  have h1 : u.title.getD e.title = e.title := congrArg Event.title h
  have h2 : u.description.getD e.description = e.description :=
    congrArg Event.description h
  have h3 : u.location.getD e.location = e.location := congrArg Event.location h
  have h4 : u.start_time.getD e.start_time = e.start_time :=
    congrArg Event.start_time h
  have h5 : u.end_time.getD e.end_time = e.end_time := congrArg Event.end_time h
  have h6 : u.is_recurring.getD e.is_recurring = e.is_recurring :=
    congrArg Event.is_recurring h
  have h7 : u.recurrence_type.getD e.recurrence_type = e.recurrence_type :=
    congrArg Event.recurrence_type h
  have h8 : u.recurrence_pattern.getD e.recurrence_pattern = e.recurrence_pattern :=
    congrArg Event.recurrence_pattern h
  unfold field_change_strings
  rw [seg_nil _ _ _ h1, seg_nil _ _ _ h2, seg_nil _ _ _ h3, seg_nil _ _ _ h4,
    seg_nil _ _ _ h5, seg_nil _ _ _ h6, seg_nil _ _ _ h7, seg_nil _ _ _ h8]
  rfl

lemma generate_change_summary_no_changes (e : Event) (u : EventUpdateData)
    (h : apply_update e u = e) : generate_change_summary e u = "No changes" := by
  unfold generate_change_summary
  rw [field_change_strings_nil e u h]
  rfl

/-- The post-state of a value-preserving but non-empty update: a snapshot
with summary "No changes" at the event's current version number, and the
event row advanced to the next version with unchanged field values. -/
def no_change_update_state (db : DB) (e : Event) (userId : Nat) : DB :=
  { create_version db e userId "No changes" with
    events := update_first (fun x => decide (x.id = e.id))
      (fun _ => { e with version := e.version + 1 }) db.events }

/-- C10: an authorized update whose change set is non-empty but whose
every supplied value equals the event's current value still writes a
snapshot (with summary "No changes") and still increments the version
counter by exactly 1; only the empty change set short-circuits as a true
no-op, leaving both the event and the store untouched. -/
theorem c10_identical_update_still_versions (db : DB) (e : Event)
    (u : EventUpdateData) (userId : Nat)
    (hperm : has_permission db userId e PermissionLevel.editor = true) :
    (u.isEmpty = true → update_event db e u userId = Except.ok (db, e)) ∧
    (u.isEmpty = false → apply_update e u = e →
      check_event_conflicts db e.owner_id e.start_time e.end_time (some e.id) =
        Option.none →
      update_event db e u userId =
        Except.ok (no_change_update_state db e userId,
          { e with version := e.version + 1 })) := by
  constructor
  · intro hemp
    unfold update_event
    rw [hperm]
    simp [hemp]
  · intro hne heq hconf
    have h4 : u.start_time.getD e.start_time = e.start_time :=
      congrArg Event.start_time heq
    have h5 : u.end_time.getD e.end_time = e.end_time := congrArg Event.end_time heq
    unfold update_event
    rw [hperm]
    simp only [Bool.true_eq_false, if_false, hne, Bool.false_eq_true]
    rw [h4, h5, hconf]
    have hd : (if u.start_time.isSome || u.end_time.isSome then
        (Option.none : Option String) else Option.none) = Option.none := by
      cases u.start_time.isSome || u.end_time.isSome <;> rfl
    rw [hd]
    rw [generate_change_summary_no_changes e u heq]
    rw [heq]
    rfl

def c10_e : Event :=
  { id := 1, title := "Standup", description := Option.none,
    location := Option.none, start_time := 540, end_time := 570,
    is_recurring := false, recurrence_type := RecurrenceType.none,
    recurrence_pattern := Option.none, owner_id := 1, version := 1,
    is_deleted := false }

def c10_db : DB :=
  { users := [1], events := [c10_e],
    versions := [version_row c10_e 1 "Initial creation"], permissions := [],
    nextEventId := 2 }

def c10_u : EventUpdateData :=
  { title := some "Standup", description := Option.none,
    location := Option.none, start_time := Option.none,
    end_time := Option.none, is_recurring := Option.none,
    recurrence_type := Option.none, recurrence_pattern := Option.none }

def c10_empty : EventUpdateData :=
  { title := Option.none, description := Option.none,
    location := Option.none, start_time := Option.none,
    end_time := Option.none, is_recurring := Option.none,
    recurrence_type := Option.none, recurrence_pattern := Option.none }

/-- Witness for C10: supplying the current title verbatim bumps the
version and writes a "No changes" snapshot; supplying nothing is a
no-op. -/
theorem c10_identical_update_still_versions_witness :
    update_event c10_db c10_e c10_u 1 =
      Except.ok (no_change_update_state c10_db c10_e 1,
        { c10_e with version := c10_e.version + 1 }) ∧
    update_event c10_db c10_e c10_empty 1 = Except.ok (c10_db, c10_e) :=
  ⟨(c10_identical_update_still_versions c10_db c10_e c10_u 1 (by decide)).2
      (by decide) (by decide) (by decide),
   (c10_identical_update_still_versions c10_db c10_e c10_empty 1 (by decide)).1
      (by decide)⟩

def c8_d : EventCreateData :=
  { title := "Meeting", description := Option.none, location := Option.none,
    start_time := 600, end_time := 660, is_recurring := false,
    recurrence_type := RecurrenceType.none, recurrence_pattern := Option.none }

def c8_db0 : DB :=
  { users := [1], events := [], versions := [], permissions := [],
    nextEventId := 1 }

def c8_r1 : Except SvcErr (DB × Event) := create_event_endpoint c8_db0 c8_d 1

def c8_db1 : DB :=
  match c8_r1 with
  | Except.ok (d, _) => d
  | Except.error _ => c8_db0

def c8_e1 : Event :=
  match c8_r1 with
  | Except.ok (_, e) => e
  | Except.error _ =>
    { id := 1, title := "Meeting", description := Option.none,
      location := Option.none, start_time := 600, end_time := 660,
      is_recurring := false, recurrence_type := RecurrenceType.none,
      recurrence_pattern := Option.none, owner_id := 1, version := 1,
      is_deleted := false }

def c8_u : EventUpdateData :=
  { title := Option.none, description := Option.none, location := Option.none,
    start_time := Option.none, end_time := some 540,
    is_recurring := Option.none, recurrence_type := Option.none,
    recurrence_pattern := Option.none }

def c8_r2 : Except SvcErr (DB × Event) := update_event c8_db1 c8_e1 c8_u 1

def c8_e2 : Event :=
  match c8_r2 with
  | Except.ok (_, e) => e
  | Except.error _ => c8_e1

/-- C8 counterexample: an event created through the validated path with
the interval [600, 660) accepts an update supplying only
`end_time := 540` — `EventUpdate` carries no end-after-start validator
and `update_event` re-checks only conflicts — leaving a persisted event
with `end_time < start_time`. -/
theorem c8_update_breaks_interval_invariant :
    c8_r1.isOk = true ∧ c8_e1.start_time < c8_e1.end_time ∧
    c8_r2.isOk = true ∧ c8_e2.start_time = 600 ∧ c8_e2.end_time = 540 := by
  decide

/-- Detector for the 422 a Pydantic validation failure produces. -/
def is_validation_error {α : Type} : Except SvcErr α → Bool
  | Except.error (SvcErr.validation _) => true
  | _ => false

lemma parse_rejects_bad_interval (d : EventCreateData)
    (h : d.end_time ≤ d.start_time) :
    ∃ m, parse_event_create d = Except.error m := by
  unfold parse_event_create
  by_cases h1 : d.title.length < 1
  · exact ⟨_, if_pos h1⟩
  · rw [if_neg h1]
    by_cases h2 : d.title.length > 200
    · exact ⟨_, if_pos h2⟩
    · rw [if_neg h2]
      by_cases h3 : (d.location.any fun l => decide (l.length > 500)) = true
      · exact ⟨_, if_pos h3⟩
      · rw [if_neg h3]
        exact ⟨_, if_pos h⟩

/-- C8 amended: the creation half of the claim holds — a create payload
with `end_time ≤ start_time` is rejected by the schema validator before
any service or store code runs, so nothing is persisted; the update half
is false (see the counterexample), as updates are not re-validated. -/
theorem c8_create_validates_interval (db : DB) (d : EventCreateData)
    (ownerId : Nat) (h : d.end_time ≤ d.start_time) :
    is_validation_error (create_event_endpoint db d ownerId) = true := by
  obtain ⟨m, hm⟩ := parse_rejects_bad_interval d h
  unfold create_event_endpoint
  rw [hm]
  rfl

def c8w_d : EventCreateData :=
  { title := "Backwards", description := Option.none, location := Option.none,
    start_time := 660, end_time := 600, is_recurring := false,
    recurrence_type := RecurrenceType.none, recurrence_pattern := Option.none }

/-- Witness for C8's amended theorem at a concrete inverted interval. -/
theorem c8_create_validates_interval_witness :
    is_validation_error (create_event_endpoint c8_db0 c8w_d 1) = true :=
  c8_create_validates_interval c8_db0 c8w_d 1 (by decide)

lemma update_event_ok_anatomy (db : DB) (e : Event) (u : EventUpdateData)
    (userId : Nat) (db' : DB) (e' : Event) (hne : u.isEmpty = false)
    (h : update_event db e u userId = Except.ok (db', e')) :
    e' = { apply_update e u with version := e.version + 1 } ∧
    db'.versions =
      db.versions ++ [version_row e userId (generate_change_summary e u)] := by
  unfold update_event at h
  split at h
  · cases h
  · split at h
    · rename_i hemp
      rw [hemp] at hne
      cases hne
    · split at h
      · cases h
      · injection h with h'
        injection h' with hd he
        subst hd
        subst he
        exact ⟨rfl, rfl⟩

lemma versions_of_append_row (vs : List EventVersionRow)
    (row : EventVersionRow) (eventId : Nat) (hid : row.event_id = eventId) :
    versions_of (vs ++ [row]) eventId =
      versions_of vs eventId ++ [row.version_number] := by
  unfold versions_of
  rw [List.filter_append, List.map_append]
  congr 1
  simp [hid]

lemma run_updates_ok (userId : Nat) :
    ∀ (us : List EventUpdateData) (db : DB) (e : Event) (db' : DB) (e' : Event),
      (∀ u ∈ us, u.isEmpty = false) →
      run_updates userId db e us = Except.ok (db', e') →
      e'.id = e.id ∧ e'.version = e.version + us.length ∧
      snapshot_versions db' e.id =
        snapshot_versions db e.id ++ List.range' e.version us.length := by
  intro us
  induction us with
  | nil =>
    intro db e db' e' _ hr
    injection hr with hr'
    injection hr' with hd he
    subst hd
    subst he
    exact ⟨rfl, by simp, by simp⟩
  | cons u us ih =>
    intro db e db' e' hne hr
    unfold run_updates at hr
    cases hu : update_event db e u userId with
    | error err => rw [hu] at hr; cases hr
    | ok p =>
      rw [hu] at hr
      cases p with
      | mk db1 e1 =>
        obtain ⟨he1, hv1⟩ :=
          update_event_ok_anatomy db e u userId db1 e1
            (hne u (List.mem_cons_self u us)) hu
        obtain ⟨hid, hver, hsnap⟩ :=
          ih db1 e1 db' e' (fun x hx => hne x (List.mem_cons_of_mem u hx)) hr
        subst he1
        have hid' : e'.id = e.id := hid.trans rfl
        have hver' : e'.version = e.version + 1 + us.length := hver
        have hsnap' : snapshot_versions db' e.id =
            snapshot_versions db1 e.id ++ List.range' (e.version + 1) us.length :=
          hsnap
        refine ⟨hid', by rw [hver', List.length_cons]; omega, ?_⟩
        have hs1 : snapshot_versions db1 e.id =
            snapshot_versions db e.id ++ [e.version] := by
          unfold snapshot_versions
          rw [hv1]
          exact versions_of_append_row db.versions _ e.id rfl
        rw [hsnap', hs1]
        rw [List.append_assoc]
        congr 1

/-- C1 amended: after creation and N consecutive successful non-empty
updates, the snapshot version numbers of the event are, in table order,
`1, 1, 2, …, N` — the creation snapshot and the first update's
pre-mutation snapshot both carry version number 1, and the final
(current) version N+1 has no snapshot; the claimed contiguous
`1..currentVersion` with at most one snapshot per number fails for every
N ≥ 1. -/
theorem c1_snapshot_versions_shape (db0 : DB) (d : EventCreateData)
    (ownerId : Nat) (us : List EventUpdateData) (db1 db2 : DB) (e1 e2 : Event)
    (h0 : snapshot_versions db0 db0.nextEventId = [])
    (hc : create_event db0 d ownerId = Except.ok (db1, e1))
    (hne : ∀ u ∈ us, u.isEmpty = false)
    (hr : run_updates ownerId db1 e1 us = Except.ok (db2, e2)) :
    snapshot_versions db2 e2.id = 1 :: List.range' 1 us.length ∧
    e2.version = us.length + 1 := by
  unfold create_event at hc
  split at hc
  · cases hc
  · injection hc with hc'
    injection hc' with hd he
    subst hd
    subst he
    obtain ⟨hid, hver, hsnap⟩ := run_updates_ok ownerId us _ _ db2 e2 hne hr
    have hs1 : snapshot_versions
        (create_version
          { db0 with
            events := db0.events ++
              [{ id := db0.nextEventId, title := d.title,
                 description := d.description, location := d.location,
                 start_time := d.start_time, end_time := d.end_time,
                 is_recurring := d.is_recurring,
                 recurrence_type := d.recurrence_type,
                 recurrence_pattern := d.recurrence_pattern,
                 owner_id := ownerId, version := 1, is_deleted := false }]
            nextEventId := db0.nextEventId + 1 }
          { id := db0.nextEventId, title := d.title,
            description := d.description, location := d.location,
            start_time := d.start_time, end_time := d.end_time,
            is_recurring := d.is_recurring, recurrence_type := d.recurrence_type,
            recurrence_pattern := d.recurrence_pattern, owner_id := ownerId,
            version := 1, is_deleted := false }
          ownerId "Initial creation") db0.nextEventId = [1] := by
      unfold snapshot_versions create_version
      rw [versions_of_append_row db0.versions _ db0.nextEventId rfl]
      have hempty : versions_of db0.versions db0.nextEventId = [] := h0
      rw [hempty]
      rfl
    constructor
    · rw [hid, hsnap]
      rw [hs1]
      rfl
    · rw [hver]
      show 1 + us.length = us.length + 1
      omega

def c1_d : EventCreateData :=
  { title := "Standup", description := Option.none, location := Option.none,
    start_time := 540, end_time := 570, is_recurring := false,
    recurrence_type := RecurrenceType.none, recurrence_pattern := Option.none }

def c1_db0 : DB :=
  { users := [1], events := [], versions := [], permissions := [],
    nextEventId := 1 }

def c1_r1 : Except SvcErr (DB × Event) := create_event c1_db0 c1_d 1

def c1_db1 : DB :=
  match c1_r1 with
  | Except.ok (d, _) => d
  | Except.error _ => c1_db0

def c1_e1 : Event :=
  match c1_r1 with
  | Except.ok (_, e) => e
  | Except.error _ =>
    { id := 1, title := "Standup", description := Option.none,
      location := Option.none, start_time := 540, end_time := 570,
      is_recurring := false, recurrence_type := RecurrenceType.none,
      recurrence_pattern := Option.none, owner_id := 1, version := 1,
      is_deleted := false }

def c1_u : EventUpdateData :=
  { title := some "Standup v2", description := Option.none,
    location := Option.none, start_time := Option.none,
    end_time := Option.none, is_recurring := Option.none,
    recurrence_type := Option.none, recurrence_pattern := Option.none }

def c1_r2 : Except SvcErr (DB × Event) := run_updates 1 c1_db1 c1_e1 [c1_u]

def c1_db2 : DB :=
  match c1_r2 with
  | Except.ok (d, _) => d
  | Except.error _ => c1_db1

def c1_e2 : Event :=
  match c1_r2 with
  | Except.ok (_, e) => e
  | Except.error _ => c1_e1

/-- C1 counterexample: after creation and one successful update the
event's snapshots carry version numbers [1, 1] while the current version
is 2 — two snapshots share version number 1 and version 2 has none, so
the snapshot version numbers are not the contiguous duplicate-free range
`1..currentVersion` the claim states. -/
theorem c1_duplicate_version_one :
    c1_r2 = Except.ok (c1_db2, c1_e2) ∧ c1_e2.version = 2 ∧
    snapshot_versions c1_db2 c1_e2.id = [1, 1] ∧
    ¬ (snapshot_versions c1_db2 c1_e2.id).Perm
        (List.range' 1 c1_e2.version) := by
  refine ⟨rfl, by decide, by decide, by decide⟩

/-- Witness for C1's amended theorem at the concrete one-update run. -/
theorem c1_snapshot_versions_shape_witness :
    snapshot_versions c1_db2 c1_e2.id = 1 :: List.range' 1 1 ∧
    c1_e2.version = 1 + 1 :=
  c1_snapshot_versions_shape c1_db0 c1_d 1 [c1_u] c1_db1 c1_db2 c1_e1 c1_e2
    rfl rfl (by decide) rfl

lemma batch_rows_error_iff (db : DB) (ownerId : Nat) :
    ∀ (ds : List EventCreateData) (nid : Nat),
      (batch_rows db ownerId ds nid).isOk = false ↔
        ∃ d ∈ ds, (check_event_conflicts db ownerId d.start_time d.end_time
          Option.none).isSome = true := by
  intro ds
  induction ds with
  | nil =>
    intro nid
    constructor
    · intro h; exact Bool.noConfusion h
    · rintro ⟨x, hx, _⟩; cases hx
  | cons d rest ih =>
    intro nid
    unfold batch_rows
    cases hc : check_event_conflicts db ownerId d.start_time d.end_time
        Option.none with
    | some t =>
      constructor
      · intro _
        exact ⟨d, List.mem_cons_self d rest, by rw [hc]; rfl⟩
      · intro _
        rfl
    | none =>
      cases hr : batch_rows db ownerId rest (nid + 1) with
      | error t =>
        have hih := ih (nid + 1)
        rw [hr] at hih
        constructor
        · intro _
          obtain ⟨x, hx, hP⟩ := hih.1 rfl
          exact ⟨x, List.mem_cons_of_mem d hx, hP⟩
        · intro _
          rfl
      | ok evs =>
        have hih := ih (nid + 1)
        rw [hr] at hih
        constructor
        · intro hfalse
          exact Bool.noConfusion hfalse
        · rintro ⟨x, hx, hP⟩
          rcases List.mem_cons.1 hx with h | h
          · subst h
            rw [hc] at hP
            exact Bool.noConfusion hP
          · exact Bool.noConfusion (hih.2 ⟨x, h, hP⟩)

lemma batch_rows_ok_shape (db : DB) (ownerId : Nat) :
    ∀ (ds : List EventCreateData) (nid : Nat) (evs : List Event),
      batch_rows db ownerId ds nid = Except.ok evs →
      evs.length = ds.length ∧ ∀ e ∈ evs, e.version = 1 := by
  intro ds
  induction ds with
  | nil =>
    intro nid evs h
    injection h with h'
    subst h'
    exact ⟨rfl, fun e he => absurd he (List.not_mem_nil e)⟩
  | cons d rest ih =>
    intro nid evs h
    unfold batch_rows at h
    cases hc : check_event_conflicts db ownerId d.start_time d.end_time
        Option.none with
    | some t => rw [hc] at h; cases h
    | none =>
      rw [hc] at h
      cases hr : batch_rows db ownerId rest (nid + 1) with
      | error t => rw [hr] at h; cases h
      | ok evs' =>
        rw [hr] at h
        injection h with h'
        subst h'
        obtain ⟨hl, hv⟩ := ih (nid + 1) evs' hr
        refine ⟨by simp [hl], ?_⟩
        intro e he
        rcases List.mem_cons.1 he with h | h
        · subst h; rfl
        · exact hv e h

lemma foldl_create_version_events (ownerId : Nat) :
    ∀ (evs : List Event) (db : DB),
      (evs.foldl (fun acc e => create_version acc e ownerId "Initial creation")
        db).events = db.events := by
  intro evs
  induction evs with
  | nil => intro db; rfl
  | cons e rest ih =>
    intro db
    rw [List.foldl_cons, ih]
    rfl

lemma foldl_create_version_versions (ownerId : Nat) :
    ∀ (evs : List Event) (db : DB),
      (evs.foldl (fun acc e => create_version acc e ownerId "Initial creation")
        db).versions =
        db.versions ++ evs.map (fun e => version_row e ownerId "Initial creation") := by
  intro evs
  induction evs with
  | nil => intro db; simp
  | cons e rest ih =>
    intro db
    rw [List.foldl_cons, ih, List.map_cons]
    show (create_version db e ownerId "Initial creation").versions ++ _ = _
    unfold create_version
    simp

/-- C5: batch creation is all-or-nothing.  The endpoint fails exactly
when some item fails schema validation or conflicts with an event already
stored when the batch began (a failure rolls the whole transaction back,
so the input state is returned untouched and nothing — events or
snapshots — is persisted); on success every item becomes an event with
version 1 and exactly the batch's version-1 "Initial creation" snapshots
are appended. -/
theorem c5_batch_all_or_nothing (db : DB) (ds : List EventCreateData)
    (ownerId : Nat) (h1 : 1 ≤ ds.length) (h2 : ds.length ≤ 100) :
    ((create_batch_endpoint db ds ownerId).isOk = false ↔
      ∃ d ∈ ds, (parse_event_create d).isOk = false ∨
        (check_event_conflicts db ownerId d.start_time d.end_time
          Option.none).isSome = true) ∧
    (∀ db' evs, create_batch_endpoint db ds ownerId = Except.ok (db', evs) →
      db'.events = db.events ++ evs ∧
      db'.versions = db.versions ++
        evs.map (fun e => version_row e ownerId "Initial creation") ∧
      evs.length = ds.length ∧ ∀ e ∈ evs, e.version = 1) := by
  have hn1 : ¬ ds.length < 1 := by omega
  have hn2 : ¬ ds.length > 100 := by omega
  unfold create_batch_endpoint
  rw [if_neg hn1, if_neg hn2]
  cases hf : (ds.map parse_event_create).find? (fun r => decide (r.isOk = false)) with
  | some r =>
    cases r with
    | error m =>
      constructor
      · constructor
        · intro _
          have hmem := List.mem_of_find?_eq_some hf
          rw [List.mem_map] at hmem
          obtain ⟨d0, hd0, hpd⟩ := hmem
          exact ⟨d0, hd0, Or.inl (by rw [hpd]; rfl)⟩
        · intro _
          rfl
      · intro db' evs habs
        cases habs
    | ok v =>
      have hps := List.find?_some hf
      simp only [decide_eq_true_eq] at hps
      exact Bool.noConfusion hps
  | none =>
    have hall : ∀ d ∈ ds, (parse_event_create d).isOk = true := by
      intro d hd
      have hnd := List.find?_eq_none.1 hf (parse_event_create d)
        (List.mem_map_of_mem _ hd)
      simp only [decide_eq_true_eq] at hnd
      exact Bool.of_not_eq_false hnd
    unfold create_batch_events
    cases hb : batch_rows db ownerId ds db.nextEventId with
    | error t =>
      constructor
      · constructor
        · intro _
          have hiff := batch_rows_error_iff db ownerId ds db.nextEventId
          rw [hb] at hiff
          obtain ⟨d0, hd0, hP⟩ := hiff.1 rfl
          exact ⟨d0, hd0, Or.inr hP⟩
        · intro _
          rfl
      · intro db' evs habs
        cases habs
    | ok evs0 =>
      constructor
      · constructor
        · intro habs
          exact Bool.noConfusion habs
        · rintro ⟨d0, hd0, hP | hP⟩
          · rw [hall d0 hd0] at hP
            exact Bool.noConfusion hP
          · have hiff := batch_rows_error_iff db ownerId ds db.nextEventId
            rw [hb] at hiff
            exact Bool.noConfusion (hiff.2 ⟨d0, hd0, hP⟩)
      · intro db' evs hok
        injection hok with hok'
        injection hok' with hd he
        subst hd
        subst he
        obtain ⟨hl, hv⟩ := batch_rows_ok_shape db ownerId ds db.nextEventId evs0 hb
        refine ⟨?_, ?_, hl, hv⟩
        · rw [foldl_create_version_events]
        · rw [foldl_create_version_versions]

def c5_ev : Event :=
  { id := 1, title := "Morning block", description := Option.none,
    location := Option.none, start_time := 600, end_time := 660,
    is_recurring := false, recurrence_type := RecurrenceType.none,
    recurrence_pattern := Option.none, owner_id := 1, version := 1,
    is_deleted := false }

def c5_db : DB :=
  { users := [1], events := [c5_ev],
    versions := [version_row c5_ev 1 "Initial creation"], permissions := [],
    nextEventId := 2 }

def c5_good : EventCreateData :=
  { title := "Afternoon block", description := Option.none,
    location := Option.none, start_time := 700, end_time := 760,
    is_recurring := false, recurrence_type := RecurrenceType.none,
    recurrence_pattern := Option.none }

def c5_bad : EventCreateData :=
  { title := "Overlapping block", description := Option.none,
    location := Option.none, start_time := 630, end_time := 690,
    is_recurring := false, recurrence_type := RecurrenceType.none,
    recurrence_pattern := Option.none }

/-- Witness for C5: a batch containing a conflicting item fails as a
whole. -/
theorem c5_batch_all_or_nothing_witness :
    (create_batch_endpoint c5_db [c5_good, c5_bad] 1).isOk = false :=
  (c5_batch_all_or_nothing c5_db [c5_good, c5_bad] 1 (by decide) (by decide)).1.mpr
    ⟨c5_bad, by decide, Or.inr (by decide)⟩

def c2_d : EventCreateData :=
  { title := "Standup", description := Option.none, location := Option.none,
    start_time := 540, end_time := 570, is_recurring := false,
    recurrence_type := RecurrenceType.none, recurrence_pattern := Option.none }

def c2_db0 : DB :=
  { users := [1], events := [], versions := [], permissions := [],
    nextEventId := 1 }

def c2_r1 : Except SvcErr (DB × Event) := create_event c2_db0 c2_d 1

def c2_db1 : DB :=
  match c2_r1 with
  | Except.ok (d, _) => d
  | Except.error _ => c2_db0

def c2_e1 : Event :=
  match c2_r1 with
  | Except.ok (_, e) => e
  | Except.error _ =>
    { id := 1, title := "Standup", description := Option.none,
      location := Option.none, start_time := 540, end_time := 570,
      is_recurring := false, recurrence_type := RecurrenceType.none,
      recurrence_pattern := Option.none, owner_id := 1, version := 1,
      is_deleted := false }

def c2_u : EventUpdateData :=
  { title := some "Standup v2", description := Option.none,
    location := Option.none, start_time := Option.none,
    end_time := Option.none, is_recurring := Option.none,
    recurrence_type := Option.none, recurrence_pattern := Option.none }

def c2_r2 : Except SvcErr (DB × Event) := update_event c2_db1 c2_e1 c2_u 1

def c2_db2 : DB :=
  match c2_r2 with
  | Except.ok (d, _) => d
  | Except.error _ => c2_db1

def c2_e2 : Event :=
  match c2_r2 with
  | Except.ok (_, e) => e
  | Except.error _ => c2_e1

def c2_rb : RollbackResult := rollback_event c2_db2 c2_e2 1 1

def c2_db3 : DB :=
  match c2_rb with
  | RollbackResult.forbidden d => d
  | RollbackResult.versionNotFound d => d
  | RollbackResult.noEventData d => d
  | RollbackResult.nullSnapshotField d => d
  | RollbackResult.ok d _ => d

/-- C2: the create/update steps of the scenario behave as claimed, but
the rollback cannot: `rollback_event` reads `target_version.event_data`,
a column populated by no code path (the snapshot writer
`EventService._create_version` fills the per-field columns of the other
`EventVersion` class sharing the `event_versions` table), so after
committing its "Rollback to version 1" snapshot (version number 2, title
"Standup v2") the rollback dies on the missing JSON instead of reverting
the title to "Standup" and advancing the version to 3 — the event stays
at title "Standup v2", version 2. -/
theorem c2_rollback_crashes_instead_of_reverting :
    c2_r1.isOk = true ∧ c2_e1.title = "Standup" ∧ c2_e1.version = 1 ∧
    c2_r2.isOk = true ∧ c2_e2.title = "Standup v2" ∧ c2_e2.version = 2 ∧
    c2_rb = RollbackResult.noEventData c2_db3 ∧
    (c2_db3.events.find? (fun e => decide (e.id = c2_e2.id))).map
      (fun e => (e.title, e.version)) = some ("Standup v2", 2) ∧
    versions_of c2_db3.versions c2_e2.id = [1, 1, 2] := by
  decide

end EventMgmt
